import Mathlib

/-!
Shallow embedding of `src/driveWithJoystick.py` (the `SpheroController` class
and the `main` entry point).

Modelling conventions:
* Python floats (axis values, headings, voltages, timestamps) are embedded as
  exact rationals `ℚ`; Python ints as `ℤ` / `ℕ`.
* All joystick and actuator interaction goes through an explicit per-tick
  environment `Env`: axis values, button states, the clock, the sensor
  readings returned this tick, plus one failure flag per actuator-call kind
  (flag `true` means that kind of call raises a transport exception this
  tick).
* The mutable attributes of a `SpheroController` instance live in
  `SessionState`; `World` adds the colour last written successfully to the
  front LED and the list of actuator commands issued so far.
* A Python exception escaping a statement is modelled as `Except.error ()`;
  code wrapped in `try/except` that merely prints is modelled as returning
  the state unchanged.
-/

set_option autoImplicit false

/-- RGB colour triple (the spherov2 `Color`). -/
structure Color where
  r : ℕ
  g : ℕ
  b : ℕ
deriving DecidableEq, Repr

/-- One actuator command issued to the toy (a `SpheroEduAPI` call). -/
inductive ACall where
  | setHeading (h : ℚ)
  | setSpeed (s : ℤ)
  | setFrontLed (c : Color)
  | setMatrixCharacter (ch : Char) (c : Color)
deriving DecidableEq, Repr

/-- The mutable attributes set in `SpheroController.__init__`
(driveWithJoystick.py lines 52-71). -/
structure SessionState where
  speed : ℤ
  base_heading : ℚ
  is_running : Bool
  calibration_mode : Bool
  game_on : Bool
  cheat_mode : Bool
  konami_index : ℕ
  last_battery_check : ℚ
  game_start_time : ℚ
  color : Color
  player_id : ℤ
deriving DecidableEq, Repr

/-- Controller state together with the observable actuator state: the colour
last successfully written to the front LED and the commands issued so far. -/
structure World where
  sess : SessionState
  frontLed : Color
  trace : List ACall
deriving DecidableEq, Repr

/-- Per-tick environment: the joystick snapshot, the clock, the values the
sensors would return this tick, and one failure flag per actuator-call kind. -/
structure Env where
  now : ℚ
  x_axis : ℚ
  y_axis : ℚ
  button : ℕ → Bool
  heading_reading : ℚ
  voltage : ℚ
  failSetHeading : Bool
  failSetSpeed : Bool
  failSetFrontLed : Bool
  failSetMatrix : Bool
  failGetHeading : Bool
  failGetVoltage : Bool

/-- Python's `%` on floats with a positive modulus:
`x % m = x - m * floor (x / m)`, always in `[0, m)` for `m > 0`. -/
def pymod (x m : ℚ) : ℚ := x - m * (⌊x / m⌋ : ℚ)

/-- `api.set_heading h` — fails iff `env.failSetHeading`. -/
def doSetHeading (env : Env) (w : World) (h : ℚ) : Except Unit World :=
  if env.failSetHeading = true then .error ()
  else .ok { w with trace := w.trace ++ [ACall.setHeading h] }

/-- `api.set_speed s` — fails iff `env.failSetSpeed`. -/
def doSetSpeed (env : Env) (w : World) (s : ℤ) : Except Unit World :=
  if env.failSetSpeed = true then .error ()
  else .ok { w with trace := w.trace ++ [ACall.setSpeed s] }

/-- `api.set_front_led c` — fails iff `env.failSetFrontLed`; on success the
front LED shows `c`. -/
def doSetFrontLed (env : Env) (w : World) (c : Color) : Except Unit World :=
  if env.failSetFrontLed = true then .error ()
  else .ok { w with frontLed := c, trace := w.trace ++ [ACall.setFrontLed c] }

/-- The module-level `BUTTONS` dict (lines 13-31), in insertion order, which
is the iteration order of `BUTTONS.items()`. -/
def BUTTONS : List (String × ℕ) :=
  [("1", 0), ("2", 1), ("3", 2), ("4", 3),
   ("L1", 4), ("R1", 5), ("L2", 6), ("R2", 7),
   ("SELECT", 8), ("START", 9),
   ("UP", 10), ("DOWN", 11), ("LEFT", 12), ("RIGHT", 13),
   ("B", 14), ("A", 15)]

/-- Lookup in the `BUTTONS` dict (`BUTTONS[name]`). -/
def btnId (name : String) : ℕ := (List.lookup name BUTTONS).getD 99

/-- `LED_PATTERNS` dict (line 33). -/
def LED_PATTERNS : List (ℤ × Char) := [(1, '1'), (2, '2'), (3, '3'), (4, '4'), (5, '5')]

/-- `LED_PATTERNS.get(player_id, '?')` (line 241). -/
def led_pattern_for (pid : ℤ) : Char := (List.lookup pid LED_PATTERNS).getD '?'

/-- Module constant `BATTERY_CHECK_INTERVAL = 30` (line 35). -/
def BATTERY_CHECK_INTERVAL : ℚ := 30

/-- Module constant `HEADING_ADJUSTMENT = 5` (line 36). -/
def HEADING_ADJUSTMENT : ℚ := 5

/-- `KONAMI_CODE` (lines 40-46), built from the `BUTTONS` dict. -/
def KONAMI_CODE : List ℕ :=
  [btnId "UP", btnId "UP",
   btnId "DOWN", btnId "DOWN",
   btnId "LEFT", btnId "RIGHT",
   btnId "LEFT", btnId "RIGHT",
   btnId "B", btnId "A"]

/-- `SpheroController.move` (lines 107-109):
`set_heading(heading % 360)` then `set_speed(speed)`. -/
def move (env : Env) (w : World) (heading : ℚ) (speed : ℤ) : Except Unit World :=
  match doSetHeading env w (pymod heading 360) with
  | .error e => .error e
  | .ok w1 => doSetSpeed env w1 speed

/-- `SpheroController.enter_calibration` (lines 117-128). -/
def enter_calibration (env : Env) (w : World) (x_axis : ℚ) : Except Unit World :=
  let w0 := { w with sess := { w.sess with calibration_mode := true } }
  match doSetSpeed env w0 0 with
  | .error e => .error e
  | .ok w1 =>
    match doSetFrontLed env w1 (Color.mk 255 0 0) with
    | .error e => .error e
    | .ok w2 =>
      let bh :=
        if x_axis < -0.7 then w2.sess.base_heading - HEADING_ADJUSTMENT
        else if 0.7 < x_axis then w2.sess.base_heading + HEADING_ADJUSTMENT
        else w2.sess.base_heading
      let w3 := { w2 with sess := { w2.sess with base_heading := bh } }
      doSetHeading env w3 bh

/-- `SpheroController.exit_calibration` (lines 130-136): LED green, then
`base_heading %= 360`, `game_on = True`, `game_start_time = time.time()`. -/
def exit_calibration (env : Env) (w : World) : Except Unit World :=
  let w0 := { w with sess := { w.sess with calibration_mode := false } }
  match doSetFrontLed env w0 (Color.mk 0 255 0) with
  | .error e => .error e
  | .ok w1 =>
    .ok { w1 with sess := { w1.sess with
            base_heading := pymod w1.sess.base_heading 360,
            game_on := true,
            game_start_time := env.now } }

/-- `SpheroController.toggle_calibration` (lines 111-115).  Note: this method
is never invoked from `control_loop` or anywhere else in the module. -/
def toggle_calibration (env : Env) (w : World) (x_axis : ℚ) : Except Unit World :=
  if w.sess.calibration_mode = false then enter_calibration env w x_axis
  else exit_calibration env w

/-- `SpheroController.check_battery` (lines 141-156).  The whole body is one
`try/except`, so a failing voltage read skips everything and a failing
`set_front_led` leaves the LED unchanged; neither failure escapes. -/
def check_battery (env : Env) (w : World) : World :=
  if env.failGetVoltage = true then w
  else
    let voltage := env.voltage
    let color := Color.mk 0 255 0
    let color := if voltage < 4.1 then Color.mk 255 255 0 else color
    let color := if voltage < 3.9 then Color.mk 255 100 0 else color
    let color := if voltage < 3.7 then Color.mk 255 0 0 else color
    if env.failSetFrontLed = true then w
    else { w with frontLed := color, trace := w.trace ++ [ACall.setFrontLed color] }

/-- `SpheroController.activate_cheat_mode` (lines 173-177): latch
`cheat_mode`, pin `speed = 255`, then purple front LED (this LED call is NOT
inside a `try`, so its failure escapes). -/
def activate_cheat_mode (env : Env) (w : World) : Except Unit World :=
  let w0 := { w with sess := { w.sess with cheat_mode := true, speed := 255 } }
  doSetFrontLed env w0 (Color.mk 255 0 255)

/-- Body of the `for btn_name, btn_id in BUTTONS.items()` loop of
`check_konami_code` (lines 162-171), for one button id. -/
def check_konami_press (env : Env) (w : World) (btn_id : ℕ) : Except Unit World :=
  if env.button btn_id = true then
    let expected_btn := KONAMI_CODE.getD w.sess.konami_index 1000
    if btn_id = expected_btn then
      let w1 := { w with sess := { w.sess with konami_index := w.sess.konami_index + 1 } }
      if w1.sess.konami_index = KONAMI_CODE.length then
        match activate_cheat_mode env w1 with
        | .error e => .error e
        | .ok w2 => .ok { w2 with sess := { w2.sess with konami_index := 0 } }
      else .ok w1
    else .ok { w with sess := { w.sess with konami_index := 0 } }
  else .ok w

/-- The `for` loop of `check_konami_code` over the remaining `BUTTONS` items. -/
def check_konami_list (env : Env) : List (String × ℕ) → World → Except Unit World
  | [], w => .ok w
  | p :: rest, w =>
    match check_konami_press env w p.2 with
    | .error e => .error e
    | .ok w1 => check_konami_list env rest w1

/-- `SpheroController.check_konami_code` (lines 161-171). -/
def check_konami_code (env : Env) (w : World) : Except Unit World :=
  check_konami_list env BUTTONS w

/-- Speed presets in `control_loop` (lines 201-213): skipped entirely in
cheat mode, otherwise first pressed of buttons 1..4 wins. -/
def preset_step (env : Env) (w : World) : World :=
  if w.sess.cheat_mode = true then w
  else if env.button (btnId "1") = true then
    { w with sess := { w.sess with speed := 50, color := Color.mk 255 200 0 } }
  else if env.button (btnId "2") = true then
    { w with sess := { w.sess with speed := 70, color := Color.mk 255 100 0 } }
  else if env.button (btnId "3") = true then
    { w with sess := { w.sess with speed := 100, color := Color.mk 255 50 0 } }
  else if env.button (btnId "4") = true then
    { w with sess := { w.sess with speed := 200, color := Color.mk 255 0 0 } }
  else w

/-- Movement control in `control_loop` (lines 216-225). -/
def movement_step (env : Env) (w : World) : Except Unit World :=
  if w.sess.calibration_mode = true then enter_calibration env w env.x_axis
  else if 0.7 < |env.y_axis| then
    let heading := if env.y_axis < 0 then w.sess.base_heading else w.sess.base_heading + 180
    move env w heading w.sess.speed
  else if 0.7 < |env.x_axis| then
    let heading := w.sess.base_heading + (if 0 < env.x_axis then 22 else -22)
    move env w heading 0
  else doSetSpeed env w 0

/-- Auto-straighten in cheat mode (lines 228-234).  `get_heading` and the
direct `set_heading` are not wrapped in `try`; note that the corrected
`base_heading` is NOT reduced modulo 360 here. -/
def autostraighten_step (env : Env) (w : World) : Except Unit World :=
  if w.sess.cheat_mode = true ∧ 0.7 < |env.y_axis| ∧ |env.x_axis| < 0.2 then
    if env.failGetHeading = true then .error ()
    else
      let current_heading := env.heading_reading
      let delta := current_heading - w.sess.base_heading
      if 3 < |delta| then
        let correction := -delta * 0.2
        let w1 := { w with sess := { w.sess with
                      base_heading := w.sess.base_heading + correction } }
        doSetHeading env w1 w1.sess.base_heading
      else .ok w
  else .ok w

/-- Battery check gate in `control_loop` (lines 190-192): when 30 seconds
have elapsed the timestamp is advanced whether or not `check_battery`
succeeded internally. -/
def battery_step (env : Env) (w : World) : World :=
  if BATTERY_CHECK_INTERVAL ≤ env.now - w.sess.last_battery_check then
    let w1 := check_battery env w
    { w1 with sess := { w1.sess with last_battery_check := env.now } }
  else w

/-- `SpheroController.display_number` (lines 239-244); the body is wrapped in
`try/except`, so a matrix failure never escapes. -/
def display_number (env : Env) (w : World) : World :=
  let ch := led_pattern_for w.sess.player_id
  if env.failSetMatrix = true then w
  else { w with trace := w.trace ++ [ACall.setMatrixCharacter ch w.sess.color] }

/-- One iteration of the `while self.is_running` body of
`SpheroController.control_loop` (lines 186-237). -/
def control_loop_tick (env : Env) (w : World) : Except Unit World :=
  let wA := battery_step env w
  match check_konami_code env wA with
  | .error e => .error e
  | .ok wB =>
    let wC := preset_step env wB
    match movement_step env wC with
    | .error e => .error e
    | .ok wD =>
      match autostraighten_step env wD with
      | .error e => .error e
      | .ok wE => .ok (display_number env wE)

/-- The `while self.is_running` loop of `control_loop`, run over a finite
list of tick environments; an uncaught exception aborts the run. -/
def run_ticks : List Env → World → Except Unit World
  | [], w => .ok w
  | env :: rest, w =>
    if w.sess.is_running = true then
      match control_loop_tick env w with
      | .error e => .error e
      | .ok w1 => run_ticks rest w1
    else .ok w

/-- The state of a freshly constructed `SpheroController` as created in
`main` (lines 52-71 and 261): speed 50, base heading 0, colour red,
`konami_index = 0`, `cheat_mode = False`, both timestamps set to creation
time `t0`. -/
def initial_world (player_id : ℤ) (t0 : ℚ) : World :=
  { sess := { speed := 50, base_heading := 0, is_running := true,
              calibration_mode := false, game_on := false, cheat_mode := false,
              konami_index := 0, last_battery_check := t0, game_start_time := t0,
              color := Color.mk 255 0 0, player_id := player_id },
    frontLed := Color.mk 0 0 0,
    trace := [] }

/-- A tick environment with neutral sticks, no buttons, clock at 0, all
actuator calls succeeding. -/
def envNeutral : Env :=
  { now := 0, x_axis := 0, y_axis := 0, button := fun _ => false,
    heading_reading := 0, voltage := 0,
    failSetHeading := false, failSetSpeed := false, failSetFrontLed := false,
    failSetMatrix := false, failGetHeading := false, failGetVoltage := false }

/-- Environment in which exactly the button `sym` is pressed and every
actuator call succeeds (one pressed symbol per tick). -/
def pressOnly (sym : ℕ) : Env := { envNeutral with button := fun b => b == sym }

/-- Feed the sequence detector one pressed symbol per tick: each element of
`syms` is one call of `check_konami_code` with only that button down. -/
def feedKonami : List ℕ → World → Except Unit World
  | [], w => .ok w
  | s :: rest, w =>
    match check_konami_code (pressOnly s) w with
    | .error e => .error e
    | .ok w1 => feedKonami rest w1

/-- Start state for detector runs: a fresh controller. -/
def konamiStart : World := initial_world 1 0

/-- Number of completion events fired while feeding `syms` from a fresh
controller: each completion (i.e. `activate_cheat_mode`) writes exactly one
purple `set_front_led` command, and nothing else writes purple. -/
def konamiCompletions (syms : List ℕ) : ℕ :=
  match feedKonami syms konamiStart with
  | .ok w => w.trace.countP (fun c => decide (c = ACall.setFrontLed (Color.mk 255 0 255)))
  | .error _ => 0

/-- The detector cursor after feeding `syms` from a fresh controller. -/
def konamiCursor (syms : List ℕ) : ℕ :=
  match feedKonami syms konamiStart with
  | .ok w => w.sess.konami_index
  | .error _ => 1000

/-- Process-level outcome model for `main` plus the `__main__` guard
(lines 250-274): argument count, whether a joystick is present, whether
discovery finds a toy, whether the API session can be established. -/
structure MainEnv where
  argc : ℕ
  joystick_count : ℕ
  discovery_ok : Bool
  connect_ok : Bool
deriving DecidableEq, Repr

/-- Observable outcome of the process start-up path: the exit status, whether
`control_loop` was entered, the error messages printed, and how many actuator
commands were issued before/without the loop. -/
structure MainResult where
  exit_code : ℕ
  loop_entered : Bool
  messages : List String
  actuator_calls : ℕ
deriving DecidableEq, Repr

/-- The start-up control flow of the script (lines 250-274):
* fewer than 4 argv entries: usage message, `sys.exit(1)`;
* no joystick: message, plain `return` from `main` (process exits 0);
* discovery failure: `discover_toy` catches and prints, leaving `toy = None`,
  then `connect` prints and returns `None`, so the loop is skipped and the
  process falls off the end of `main` (exit status 0);
* connect failure: caught and printed, `connect` returns `None`, loop
  skipped, exit status 0;
* otherwise the control loop is entered. -/
def program (e : MainEnv) : MainResult :=
  if e.argc < 4 then
    { exit_code := 1, loop_entered := false,
      messages := ["Usage: python sphero_controller.py <toy_name> <joystick_id> <player_id>"],
      actuator_calls := 0 }
  else if e.joystick_count = 0 then
    { exit_code := 0, loop_entered := false,
      messages := ["No joystick detected."], actuator_calls := 0 }
  else if e.discovery_ok = false then
    { exit_code := 0, loop_entered := false,
      messages := ["Error discovering toy.", "No toy to connect to."],
      actuator_calls := 0 }
  else if e.connect_ok = false then
    { exit_code := 0, loop_entered := false,
      messages := ["Error connecting to toy API."], actuator_calls := 0 }
  else
    { exit_code := 0, loop_entered := true, messages := [], actuator_calls := 0 }

/-- A session state in which cheat mode has just been activated
(`cheat_mode = True`, `speed = 255`), otherwise fresh. -/
def cheatPinnedWorld : World :=
  { initial_world 1 0 with
    sess := { (initial_world 1 0).sess with cheat_mode := true, speed := 255 } }

/-- Result of one neutral tick from `cheatPinnedWorld`. -/
def cheatPinnedAfter : World :=
  { cheatPinnedWorld with
    trace := [ACall.setSpeed 0, ACall.setMatrixCharacter '1' (Color.mk 255 0 0)] }

/-- Tick input driving straight ahead at full stick while the actuator
reports an actual heading of 10 degrees. -/
def straightEnv : Env := { envNeutral with y_axis := -1, heading_reading := 10 }

/-- Tick input on which `set_speed` raises a transport error. -/
def speedFailEnv : Env := { envNeutral with failSetSpeed := true }

/-- Tick input 40 seconds in, on which both the battery-voltage read and the
matrix display call fail (the two call sites that are inside `try/except`). -/
def caughtFailEnv : Env :=
  { envNeutral with now := 40, failGetVoltage := true, failSetMatrix := true }

/-- Tick input with the SELECT and START buttons held. -/
def selectStartEnv : Env :=
  { envNeutral with button := fun b => b == 8 || b == 9 }

/-- Result of one `selectStartEnv` tick from a fresh controller. -/
def selectStartAfter : World :=
  { initial_world 1 0 with
    trace := [ACall.setSpeed 0, ACall.setMatrixCharacter '1' (Color.mk 255 0 0)] }

/-- A controller whose base heading has drifted to -5 (as repeated left
nudges in calibration produce). -/
def negHeadingWorld : World :=
  { initial_world 1 0 with
    sess := { (initial_world 1 0).sess with base_heading := -5, calibration_mode := true } }

/-- Result of `exit_calibration` from `negHeadingWorld` at time 0. -/
def negHeadingExited : World :=
  { negHeadingWorld with
    sess := { negHeadingWorld.sess with
      calibration_mode := false, base_heading := 355, game_on := true, game_start_time := 0 },
    frontLed := Color.mk 0 255 0,
    trace := [ACall.setFrontLed (Color.mk 0 255 0)] }

/-- Tick input with a battery reading of 4.0 volts. -/
def volt4Env : Env := { envNeutral with voltage := 4 }

/-- A controller calibrated to base heading 90. -/
def east90World : World :=
  { initial_world 1 0 with
    sess := { (initial_world 1 0).sess with base_heading := 90 } }

/-- Tick input 40 seconds in on which only the battery read fails. -/
def voltFailEnv : Env := { envNeutral with now := 40, failGetVoltage := true }

/-- Start-up environment: enough arguments, a joystick, but discovery fails. -/
def discoveryFailStart : MainEnv :=
  { argc := 4, joystick_count := 1, discovery_ok := false, connect_ok := true }

/-! ### Arithmetic facts about `pymod` -/

theorem pymod_nonneg_lt (x : ℚ) : 0 ≤ pymod x 360 ∧ pymod x 360 < 360 := by
  unfold pymod
  have h1 := Int.sub_floor_div_mul_nonneg x (show (0:ℚ) < 360 by norm_num)
  have h2 := Int.sub_floor_div_mul_lt x (show (0:ℚ) < 360 by norm_num)
  constructor <;> nlinarith [h1, h2]

theorem pymod_eq_self {x : ℚ} (h0 : 0 ≤ x) (h1 : x < 360) : pymod x 360 = x := by
  unfold pymod
  have hf : ⌊x / 360⌋ = 0 := by
    rw [Int.floor_eq_zero_iff]
    constructor
    · positivity
    · rw [div_lt_one (by norm_num : (0:ℚ) < 360)]
      exact h1
  rw [hf]
  push_cast
  ring

/-! ### Effect lemmas for single actuator calls -/

theorem doSetHeading_ok_sess {env : Env} {w : World} {h : ℚ} {w' : World}
    (H : doSetHeading env w h = .ok w') : w'.sess = w.sess ∧ w'.frontLed = w.frontLed := by
  unfold doSetHeading at H
  split at H
  · exact Except.noConfusion H
  · injection H with H1
    subst H1
    exact ⟨rfl, rfl⟩

theorem doSetSpeed_ok_sess {env : Env} {w : World} {s : ℤ} {w' : World}
    (H : doSetSpeed env w s = .ok w') : w'.sess = w.sess ∧ w'.frontLed = w.frontLed := by
  unfold doSetSpeed at H
  split at H
  · exact Except.noConfusion H
  · injection H with H1
    subst H1
    exact ⟨rfl, rfl⟩

theorem doSetFrontLed_ok_sess {env : Env} {w : World} {c : Color} {w' : World}
    (H : doSetFrontLed env w c = .ok w') : w'.sess = w.sess := by
  unfold doSetFrontLed at H
  split at H
  · exact Except.noConfusion H
  · injection H with H1
    subst H1
    rfl

theorem move_ok_sess {env : Env} {w : World} {h : ℚ} {s : ℤ} {w' : World}
    (H : move env w h s = .ok w') : w'.sess = w.sess := by
  unfold move at H
  cases hA : doSetHeading env w (pymod h 360) with
  | error e => rw [hA] at H; exact Except.noConfusion H
  | ok w1 =>
    rw [hA] at H
    have h1 := (doSetHeading_ok_sess hA).1
    have h2 := (doSetSpeed_ok_sess H).1
    rw [h2, h1]

/-! ### Effect lemmas for the composite steps -/

theorem activate_cheat_mode_ok {env : Env} {w : World} {w' : World}
    (H : activate_cheat_mode env w = .ok w') :
    w'.sess.cheat_mode = true ∧ w'.sess.speed = 255 ∧
    w'.sess.calibration_mode = w.sess.calibration_mode := by
  unfold activate_cheat_mode at H
  have h := doSetFrontLed_ok_sess H
  rw [h]
  exact ⟨rfl, rfl, rfl⟩

theorem check_konami_press_ok {env : Env} {w : World} {b : ℕ} {w' : World}
    (H : check_konami_press env w b = .ok w') :
    (w'.sess.cheat_mode = w.sess.cheat_mode ∧ w'.sess.speed = w.sess.speed ∧
      w'.sess.calibration_mode = w.sess.calibration_mode)
    ∨ (w'.sess.cheat_mode = true ∧ w'.sess.speed = 255 ∧
      w'.sess.calibration_mode = w.sess.calibration_mode) := by
  unfold check_konami_press at H
  dsimp only at H
  split at H
  · split at H
    · split at H
      · cases hA : activate_cheat_mode env
            { w with sess := { w.sess with konami_index := w.sess.konami_index + 1 } } with
        | error e => rw [hA] at H; exact Except.noConfusion H
        | ok w2 =>
          rw [hA] at H
          injection H with H1
          subst H1
          have h2 := activate_cheat_mode_ok hA
          exact Or.inr ⟨h2.1, h2.2.1, h2.2.2⟩
      · injection H with H1
        subst H1
        exact Or.inl ⟨rfl, rfl, rfl⟩
    · injection H with H1
      subst H1
      exact Or.inl ⟨rfl, rfl, rfl⟩
  · injection H with H1
    subst H1
    exact Or.inl ⟨rfl, rfl, rfl⟩

theorem check_konami_list_ok {env : Env} :
    ∀ (l : List (String × ℕ)) {w w' : World},
    check_konami_list env l w = .ok w' →
    (w'.sess.cheat_mode = w.sess.cheat_mode ∧ w'.sess.speed = w.sess.speed ∧
      w'.sess.calibration_mode = w.sess.calibration_mode)
    ∨ (w'.sess.cheat_mode = true ∧ w'.sess.speed = 255 ∧
      w'.sess.calibration_mode = w.sess.calibration_mode) := by
  intro l
  induction l with
  | nil =>
    intro w w' H
    unfold check_konami_list at H
    injection H with H1
    subst H1
    exact Or.inl ⟨rfl, rfl, rfl⟩
  | cons p rest ih =>
    intro w w' H
    unfold check_konami_list at H
    cases hA : check_konami_press env w p.2 with
    | error e => rw [hA] at H; exact Except.noConfusion H
    | ok w1 =>
      rw [hA] at H
      have h1 := check_konami_press_ok hA
      have h2 := ih H
      rcases h1 with ⟨a1, a2, a3⟩ | ⟨a1, a2, a3⟩ <;>
        rcases h2 with ⟨b1, b2, b3⟩ | ⟨b1, b2, b3⟩
      · exact Or.inl ⟨by rw [b1, a1], by rw [b2, a2], by rw [b3, a3]⟩
      · exact Or.inr ⟨b1, b2, by rw [b3, a3]⟩
      · exact Or.inr ⟨by rw [b1, a1], by rw [b2, a2], by rw [b3, a3]⟩
      · exact Or.inr ⟨b1, b2, by rw [b3, a3]⟩

theorem check_konami_code_ok {env : Env} {w w' : World}
    (H : check_konami_code env w = .ok w') :
    (w'.sess.cheat_mode = w.sess.cheat_mode ∧ w'.sess.speed = w.sess.speed ∧
      w'.sess.calibration_mode = w.sess.calibration_mode)
    ∨ (w'.sess.cheat_mode = true ∧ w'.sess.speed = 255 ∧
      w'.sess.calibration_mode = w.sess.calibration_mode) :=
  check_konami_list_ok BUTTONS H

theorem battery_step_sess (env : Env) (w : World) :
    (battery_step env w).sess.cheat_mode = w.sess.cheat_mode ∧
    (battery_step env w).sess.speed = w.sess.speed ∧
    (battery_step env w).sess.calibration_mode = w.sess.calibration_mode := by
  unfold battery_step check_battery
  repeat' split
  all_goals exact ⟨rfl, rfl, rfl⟩

theorem preset_step_sess (env : Env) (w : World) :
    (preset_step env w).sess.cheat_mode = w.sess.cheat_mode ∧
    (preset_step env w).sess.calibration_mode = w.sess.calibration_mode := by
  unfold preset_step
  repeat' split
  all_goals exact ⟨rfl, rfl⟩

theorem preset_step_of_cheat {env : Env} {w : World}
    (h : w.sess.cheat_mode = true) : preset_step env w = w := by
  unfold preset_step
  rw [if_pos h]

theorem enter_calibration_ok {env : Env} {w : World} {x : ℚ} {w' : World}
    (H : enter_calibration env w x = .ok w') :
    w'.sess.cheat_mode = w.sess.cheat_mode ∧ w'.sess.speed = w.sess.speed ∧
    w'.sess.calibration_mode = true := by
  unfold enter_calibration at H
  dsimp only at H
  cases hA : doSetSpeed env { w with sess := { w.sess with calibration_mode := true } } 0 with
  | error e => rw [hA] at H; exact Except.noConfusion H
  | ok w1 =>
    rw [hA] at H
    dsimp only at H
    cases hB : doSetFrontLed env w1 (Color.mk 255 0 0) with
    | error e => rw [hB] at H; exact Except.noConfusion H
    | ok w2 =>
      rw [hB] at H
      dsimp only at H
      have h1 := (doSetSpeed_ok_sess hA).1
      have h2 := doSetFrontLed_ok_sess hB
      have h3 := (doSetHeading_ok_sess H).1
      rw [h3, h2, h1]
      exact ⟨rfl, rfl, rfl⟩

theorem movement_step_ok {env : Env} {w : World} {w' : World}
    (H : movement_step env w = .ok w') :
    w'.sess.cheat_mode = w.sess.cheat_mode ∧ w'.sess.speed = w.sess.speed ∧
    w'.sess.calibration_mode = w.sess.calibration_mode := by
  unfold movement_step at H
  split at H
  · have h := enter_calibration_ok H
    rename_i hcal
    rw [hcal]
    exact ⟨h.1, h.2.1, h.2.2⟩
  · split at H
    · have h := move_ok_sess H
      rw [h]
      exact ⟨rfl, rfl, rfl⟩
    · split at H
      · have h := move_ok_sess H
        rw [h]
        exact ⟨rfl, rfl, rfl⟩
      · have h := (doSetSpeed_ok_sess H).1
        rw [h]
        exact ⟨rfl, rfl, rfl⟩

theorem movement_step_sess_of_not_calib {env : Env} {w : World} {w' : World}
    (hcal : w.sess.calibration_mode = false)
    (H : movement_step env w = .ok w') : w'.sess = w.sess := by
  unfold movement_step at H
  rw [hcal] at H
  simp only [Bool.false_eq_true, if_false] at H
  split at H
  · exact move_ok_sess H
  · split at H
    · exact move_ok_sess H
    · exact (doSetSpeed_ok_sess H).1

theorem autostraighten_step_ok {env : Env} {w : World} {w' : World}
    (H : autostraighten_step env w = .ok w') :
    w'.sess.cheat_mode = w.sess.cheat_mode ∧ w'.sess.speed = w.sess.speed ∧
    w'.sess.calibration_mode = w.sess.calibration_mode := by
  unfold autostraighten_step at H
  dsimp only at H
  split at H
  · split at H
    · exact Except.noConfusion H
    · split at H
      · have h := (doSetHeading_ok_sess H).1
        rw [h]
        exact ⟨rfl, rfl, rfl⟩
      · injection H with H1
        subst H1
        exact ⟨rfl, rfl, rfl⟩
  · injection H with H1
    subst H1
    exact ⟨rfl, rfl, rfl⟩

theorem display_number_sess (env : Env) (w : World) :
    (display_number env w).sess = w.sess := by
  unfold display_number
  split
  · rfl
  · rfl

/-! ### Per-tick and per-run preservation lemmas -/

theorem control_loop_tick_pinned {env : Env} {w w' : World}
    (H : control_loop_tick env w = .ok w')
    (hc : w.sess.cheat_mode = true) (hs : w.sess.speed = 255) :
    w'.sess.cheat_mode = true ∧ w'.sess.speed = 255 := by
  unfold control_loop_tick at H
  dsimp only at H
  cases hK : check_konami_code env (battery_step env w) with
  | error e => rw [hK] at H; exact Except.noConfusion H
  | ok wB =>
    rw [hK] at H
    dsimp only at H
    have hbat := battery_step_sess env w
    have hwB : wB.sess.cheat_mode = true ∧ wB.sess.speed = 255 := by
      rcases check_konami_code_ok hK with ⟨k1, k2, _⟩ | ⟨k1, k2, _⟩
      · exact ⟨by rw [k1, hbat.1, hc], by rw [k2, hbat.2.1, hs]⟩
      · exact ⟨k1, k2⟩
    rw [preset_step_of_cheat hwB.1] at H
    cases hM : movement_step env wB with
    | error e => rw [hM] at H; exact Except.noConfusion H
    | ok wD =>
      rw [hM] at H
      dsimp only at H
      have hMv := movement_step_ok hM
      cases hS : autostraighten_step env wD with
      | error e => rw [hS] at H; exact Except.noConfusion H
      | ok wE =>
        rw [hS] at H
        dsimp only at H
        have hSt := autostraighten_step_ok hS
        injection H with H1
        subst H1
        rw [display_number_sess]
        exact ⟨by rw [hSt.1, hMv.1, hwB.1], by rw [hSt.2.1, hMv.2.1, hwB.2]⟩

theorem run_ticks_pinned {envs : List Env} :
    ∀ {w w' : World}, run_ticks envs w = .ok w' →
    w.sess.cheat_mode = true → w.sess.speed = 255 →
    w'.sess.cheat_mode = true ∧ w'.sess.speed = 255 := by
  induction envs with
  | nil =>
    intro w w' H hc hs
    unfold run_ticks at H
    injection H with H1
    subst H1
    exact ⟨hc, hs⟩
  | cons env rest ih =>
    intro w w' H hc hs
    unfold run_ticks at H
    split at H
    · cases hT : control_loop_tick env w with
      | error e => rw [hT] at H; exact Except.noConfusion H
      | ok w1 =>
        rw [hT] at H
        dsimp only at H
        have h1 := control_loop_tick_pinned hT hc hs
        exact ih H h1.1 h1.2
    · injection H with H1
      subst H1
      exact ⟨hc, hs⟩

theorem control_loop_tick_calib {env : Env} {w w' : World}
    (H : control_loop_tick env w = .ok w')
    (hcal : w.sess.calibration_mode = false) :
    w'.sess.calibration_mode = false := by
  unfold control_loop_tick at H
  dsimp only at H
  cases hK : check_konami_code env (battery_step env w) with
  | error e => rw [hK] at H; exact Except.noConfusion H
  | ok wB =>
    rw [hK] at H
    dsimp only at H
    have hbat := battery_step_sess env w
    have hwB : wB.sess.calibration_mode = false := by
      rcases check_konami_code_ok hK with ⟨_, _, k3⟩ | ⟨_, _, k3⟩ <;>
        rw [k3, hbat.2.2, hcal]
    cases hM : movement_step env (preset_step env wB) with
    | error e => rw [hM] at H; exact Except.noConfusion H
    | ok wD =>
      rw [hM] at H
      dsimp only at H
      have hMv := movement_step_ok hM
      cases hS : autostraighten_step env wD with
      | error e => rw [hS] at H; exact Except.noConfusion H
      | ok wE =>
        rw [hS] at H
        dsimp only at H
        have hSt := autostraighten_step_ok hS
        injection H with H1
        subst H1
        rw [display_number_sess, hSt.2.2, hMv.2.2, (preset_step_sess env wB).2, hwB]

theorem run_ticks_calib {envs : List Env} :
    ∀ {w w' : World}, run_ticks envs w = .ok w' →
    w.sess.calibration_mode = false →
    w'.sess.calibration_mode = false := by
  induction envs with
  | nil =>
    intro w w' H hcal
    unfold run_ticks at H
    injection H with H1
    subst H1
    exact hcal
  | cons env rest ih =>
    intro w w' H hcal
    unfold run_ticks at H
    split at H
    · cases hT : control_loop_tick env w with
      | error e => rw [hT] at H; exact Except.noConfusion H
      | ok w1 =>
        rw [hT] at H
        dsimp only at H
        exact ih H (control_loop_tick_calib hT hcal)
    · injection H with H1
      subst H1
      exact hcal

/-! ### Success lemmas: which failure kinds are actually isolated -/

theorem doSetHeading_eq {env : Env} (w : World) (h : ℚ)
    (hf : env.failSetHeading = false) :
    doSetHeading env w h = .ok { w with trace := w.trace ++ [ACall.setHeading h] } := by
  simp [doSetHeading, hf]

theorem doSetSpeed_eq {env : Env} (w : World) (s : ℤ)
    (hf : env.failSetSpeed = false) :
    doSetSpeed env w s = .ok { w with trace := w.trace ++ [ACall.setSpeed s] } := by
  simp [doSetSpeed, hf]

theorem doSetFrontLed_eq {env : Env} (w : World) (c : Color)
    (hf : env.failSetFrontLed = false) :
    doSetFrontLed env w c =
      .ok { w with frontLed := c, trace := w.trace ++ [ACall.setFrontLed c] } := by
  simp [doSetFrontLed, hf]

theorem move_ok_ex {env : Env} (w : World) (hd : ℚ) (s : ℤ)
    (hH : env.failSetHeading = false) (hS : env.failSetSpeed = false) :
    ∃ w', move env w hd s = .ok w' := by
  unfold move
  rw [doSetHeading_eq _ _ hH]
  exact ⟨_, doSetSpeed_eq _ _ hS⟩

theorem enter_calibration_ok_ex {env : Env} (w : World) (x : ℚ)
    (hH : env.failSetHeading = false) (hS : env.failSetSpeed = false)
    (hF : env.failSetFrontLed = false) :
    ∃ w', enter_calibration env w x = .ok w' := by
  unfold enter_calibration
  dsimp only
  rw [doSetSpeed_eq _ _ hS]
  dsimp only
  rw [doSetFrontLed_eq _ _ hF]
  dsimp only
  exact ⟨_, doSetHeading_eq _ _ hH⟩

theorem check_konami_press_ok_ex {env : Env} (w : World) (b : ℕ)
    (hF : env.failSetFrontLed = false) :
    ∃ w', check_konami_press env w b = .ok w' := by
  unfold check_konami_press
  dsimp only
  split
  · split
    · split
      · unfold activate_cheat_mode
        rw [doSetFrontLed_eq _ _ hF]
        exact ⟨_, rfl⟩
      · exact ⟨_, rfl⟩
    · exact ⟨_, rfl⟩
  · exact ⟨_, rfl⟩

theorem check_konami_list_ok_ex {env : Env}
    (hF : env.failSetFrontLed = false) :
    ∀ (l : List (String × ℕ)) (w : World), ∃ w', check_konami_list env l w = .ok w' := by
  intro l
  induction l with
  | nil => intro w; exact ⟨w, rfl⟩
  | cons p rest ih =>
    intro w
    obtain ⟨w1, h1⟩ := check_konami_press_ok_ex w p.2 hF
    obtain ⟨w2, h2⟩ := ih w1
    refine ⟨w2, ?_⟩
    unfold check_konami_list
    rw [h1]
    exact h2

theorem movement_step_ok_ex {env : Env} (w : World)
    (hH : env.failSetHeading = false) (hS : env.failSetSpeed = false)
    (hF : env.failSetFrontLed = false) :
    ∃ w', movement_step env w = .ok w' := by
  unfold movement_step
  split
  · exact enter_calibration_ok_ex w env.x_axis hH hS hF
  · split
    · exact move_ok_ex w _ _ hH hS
    · split
      · exact move_ok_ex w _ _ hH hS
      · exact ⟨_, doSetSpeed_eq _ _ hS⟩

theorem autostraighten_step_ok_ex {env : Env} (w : World)
    (hH : env.failSetHeading = false) (hG : env.failGetHeading = false) :
    ∃ w', autostraighten_step env w = .ok w' := by
  unfold autostraighten_step
  dsimp only
  split
  · rw [hG]
    simp only [Bool.false_eq_true, if_false]
    split
    · exact ⟨_, doSetHeading_eq _ _ hH⟩
    · exact ⟨_, rfl⟩
  · exact ⟨_, rfl⟩

theorem control_loop_tick_ok_ex {env : Env} (w : World)
    (hH : env.failSetHeading = false) (hS : env.failSetSpeed = false)
    (hF : env.failSetFrontLed = false) (hG : env.failGetHeading = false) :
    ∃ w', control_loop_tick env w = .ok w' := by
  unfold control_loop_tick
  dsimp only
  obtain ⟨wB, hK⟩ := check_konami_list_ok_ex hF BUTTONS (battery_step env w)
  rw [show check_konami_code env (battery_step env w) = .ok wB from hK]
  dsimp only
  obtain ⟨wD, hM⟩ := movement_step_ok_ex (preset_step env wB) hH hS hF
  rw [hM]
  dsimp only
  obtain ⟨wE, hA⟩ := autostraighten_step_ok_ex wD hH hG
  rw [hA]
  exact ⟨_, rfl⟩

/-! ### Evaluation lemmas for the button tables -/

theorem KONAMI_CODE_eval : KONAMI_CODE = [10, 10, 11, 11, 12, 13, 12, 13, 14, 15] := rfl

theorem btnId_one : btnId "1" = 0 := rfl

theorem btnId_two : btnId "2" = 1 := rfl

theorem btnId_three : btnId "3" = 2 := rfl

theorem btnId_four : btnId "4" = 3 := rfl

theorem led_pattern_one : led_pattern_for 1 = '1' := rfl

/-! ### Claim theorems -/

/-- C2: for every voltage reading, `check_battery` puts the front LED at
green iff `v ≥ 4.1`, yellow iff `3.9 ≤ v < 4.1`, orange iff `3.7 ≤ v < 3.9`,
and red iff `v < 3.7` (the bands are re-checked in order, so the worst
applicable colour wins). -/
theorem battery_color_bands (env : Env) (w : World)
    (h1 : env.failGetVoltage = false) (h2 : env.failSetFrontLed = false) :
    ((check_battery env w).frontLed = Color.mk 0 255 0 ↔ 4.1 ≤ env.voltage)
    ∧ ((check_battery env w).frontLed = Color.mk 255 255 0 ↔ 3.9 ≤ env.voltage ∧ env.voltage < 4.1)
    ∧ ((check_battery env w).frontLed = Color.mk 255 100 0 ↔ 3.7 ≤ env.voltage ∧ env.voltage < 3.9)
    ∧ ((check_battery env w).frontLed = Color.mk 255 0 0 ↔ env.voltage < 3.7) := by
  unfold check_battery
  rw [h1, h2]
  simp only [Bool.false_eq_true, if_false]
  rcases lt_or_le env.voltage 3.7 with c37 | c37
  · have c39 : env.voltage < 3.9 := by linarith
    have c41 : env.voltage < 4.1 := by linarith
    rw [if_pos c37]
    exact ⟨iff_of_false (by decide) (by intro h; linarith),
      iff_of_false (by decide) (by rintro ⟨a, b⟩; linarith),
      iff_of_false (by decide) (by rintro ⟨a, b⟩; linarith),
      iff_of_true rfl c37⟩
  · rcases lt_or_le env.voltage 3.9 with c39 | c39
    · rw [if_neg (not_lt.mpr c37), if_pos c39]
      exact ⟨iff_of_false (by decide) (by intro h; linarith),
        iff_of_false (by decide) (by rintro ⟨a, b⟩; linarith),
        iff_of_true rfl ⟨c37, c39⟩,
        iff_of_false (by decide) (by intro h; linarith)⟩
    · rcases lt_or_le env.voltage 4.1 with c41 | c41
      · rw [if_neg (not_lt.mpr c37), if_neg (not_lt.mpr c39), if_pos c41]
        exact ⟨iff_of_false (by decide) (by intro h; linarith),
          iff_of_true rfl ⟨c39, c41⟩,
          iff_of_false (by decide) (by rintro ⟨a, b⟩; linarith),
          iff_of_false (by decide) (by intro h; linarith)⟩
      · rw [if_neg (not_lt.mpr c37), if_neg (not_lt.mpr c39), if_neg (not_lt.mpr c41)]
        exact ⟨iff_of_true rfl c41,
          iff_of_false (by decide) (by rintro ⟨a, b⟩; linarith),
          iff_of_false (by decide) (by rintro ⟨a, b⟩; linarith),
          iff_of_false (by decide) (by intro h; linarith)⟩

/-- C2 witness: at 4.0 V the front LED is set to yellow. -/
theorem battery_color_bands_witness :
    (check_battery volt4Env (initial_world 1 0)).frontLed = Color.mk 255 255 0 := by
  refine (battery_color_bands volt4Env (initial_world 1 0) rfl rfl).2.1.mpr ?_
  constructor <;> norm_num [volt4Env, envNeutral]

/-- C1: cheat mode is a one-way latch.  `activate_cheat_mode` establishes
`cheat_mode = true` with `speed` pinned to 255, and from any such state every
successful run of control-loop ticks — whatever the inputs, including the
four preset buttons — ends with `cheat_mode` still true and `speed` still
255 (no operation ever resets either). -/
theorem cheat_mode_one_way_latch :
    (∀ (env : Env) (w w' : World), activate_cheat_mode env w = .ok w' →
      w'.sess.cheat_mode = true ∧ w'.sess.speed = 255)
    ∧ (∀ (envs : List Env) (w w' : World),
      w.sess.cheat_mode = true → w.sess.speed = 255 →
      run_ticks envs w = .ok w' →
      w'.sess.cheat_mode = true ∧ w'.sess.speed = 255) := by
  constructor
  · intro env w w' H
    have h := activate_cheat_mode_ok H
    exact ⟨h.1, h.2.1⟩
  · intro envs w w' hc hs H
    exact run_ticks_pinned H hc hs

/-- C1 witness: one concrete neutral tick from a just-activated state keeps
cheat mode on and speed at 255. -/
theorem cheat_mode_one_way_latch_witness :
    cheatPinnedAfter.sess.cheat_mode = true ∧ cheatPinnedAfter.sess.speed = 255 := by
  refine cheat_mode_one_way_latch.2 [envNeutral] cheatPinnedWorld cheatPinnedAfter rfl rfl ?_
  norm_num [run_ticks, control_loop_tick, battery_step, check_battery, check_konami_code,
    check_konami_list, check_konami_press, preset_step, movement_step, autostraighten_step,
    display_number, doSetSpeed, doSetHeading, doSetFrontLed, move, initial_world,
    cheatPinnedWorld, cheatPinnedAfter, envNeutral, BUTTONS, BATTERY_CHECK_INTERVAL,
    KONAMI_CODE_eval, btnId_one, btnId_two, btnId_three, btnId_four, led_pattern_one,
    List.getD]

/-- C8: no input ever engages calibration.  The control loop never calls
`toggle_calibration`, so from any state with `calibration_mode = false`
(in particular the initial state) every successful run of ticks — whatever
buttons are held — ends with `calibration_mode` still false: the spec's
calibration toggle button does not exist in the code. -/
theorem calibration_unreachable (envs : List Env) (w w' : World)
    (hcal : w.sess.calibration_mode = false)
    (H : run_ticks envs w = .ok w') :
    w'.sess.calibration_mode = false :=
  run_ticks_calib H hcal

/-- C8 witness: a concrete tick with SELECT and START held leaves
calibration off. -/
theorem calibration_unreachable_witness :
    selectStartAfter.sess.calibration_mode = false := by
  refine calibration_unreachable [selectStartEnv] (initial_world 1 0) selectStartAfter rfl ?_
  norm_num [run_ticks, control_loop_tick, battery_step, check_battery, check_konami_code,
    check_konami_list, check_konami_press, preset_step, movement_step, autostraighten_step,
    display_number, doSetSpeed, doSetHeading, doSetFrontLed, move, initial_world,
    selectStartEnv, selectStartAfter, envNeutral, BUTTONS, BATTERY_CHECK_INTERVAL,
    KONAMI_CODE_eval, btnId_one, btnId_two, btnId_three, btnId_four, led_pattern_one,
    List.getD]

/-- C3 counterexample: the claim says a wrong symbol inserted at ANY position
yields zero completion events; inserting the wrong symbol 5 (the R1 button)
at position 0 leaves the remaining ten ticks spelling the full target, which
fires one completion event. -/
theorem konami_insert_front_completes :
    konamiCompletions ((5 : ℕ) :: KONAMI_CODE) = 1 ∧
    (5 : ℕ) ≠ KONAMI_CODE.getD 0 1000 := by
  constructor <;> decide

set_option maxHeartbeats 1000000 in
/-- C3 (amended): feeding exactly the 10-element target one pressed symbol
per tick fires exactly one completion event and re-arms the cursor at 0;
feeding the target with one wrong button symbol inserted at any interior
position 1..9 fires zero completion events, and the cursor is 0 immediately
after the mismatching tick.  (Insertion at position 0 — and likewise after
the end — still completes once, see the counterexample.) -/
theorem konami_detector_amended :
    (konamiCompletions KONAMI_CODE = 1 ∧ konamiCursor KONAMI_CODE = 0)
    ∧ (∀ k : ℕ, k < 10 → 1 ≤ k → ∀ s : ℕ, s < 16 → s ≠ KONAMI_CODE.getD k 1000 →
      konamiCompletions (KONAMI_CODE.take k ++ s :: KONAMI_CODE.drop k) = 0
      ∧ konamiCursor (KONAMI_CODE.take k ++ [s]) = 0) := by
  constructor
  · constructor <;> decide
  · decide

/-- C3 witness: wrong symbol 7 (R2) inserted at position 3. -/
theorem konami_detector_amended_witness :
    konamiCompletions (KONAMI_CODE.take 3 ++ 7 :: KONAMI_CODE.drop 3) = 0
    ∧ konamiCursor (KONAMI_CODE.take 3 ++ [7]) = 0 :=
  konami_detector_amended.2 3 (by decide) (by decide) 7 (by decide) (by decide)

/-- C4 counterexample: one control-loop tick in cheat mode, driving straight
with `base_heading = 0` while the actuator reports heading 10, leaves
`base_heading = -2`, which is outside `[0, 360)` — the auto-straighten
accumulation does not normalize. -/
theorem autostraighten_leaves_range :
    (match control_loop_tick straightEnv cheatPinnedWorld with
      | .ok w1 => w1.sess.base_heading
      | .error _ => 0) = -2
    ∧ ¬ (0 ≤ (-2 : ℚ) ∧ (-2 : ℚ) < 360) := by
  constructor
  · norm_num [control_loop_tick, battery_step, check_battery, check_konami_code,
      check_konami_list, check_konami_press, preset_step, movement_step, autostraighten_step,
      display_number, doSetSpeed, doSetHeading, doSetFrontLed, move, pymod, initial_world,
      cheatPinnedWorld, straightEnv, envNeutral, BUTTONS, BATTERY_CHECK_INTERVAL,
      led_pattern_one]
  · norm_num

/-- C4 (amended): after every successful calibration exit `base_heading`
lies in `[0, 360)`, for every pre-exit value including negative ones; the
auto-straighten correction, by contrast, does not normalize (see the
counterexample). -/
theorem exit_calibration_normalizes (env : Env) (w w' : World)
    (H : exit_calibration env w = .ok w') :
    0 ≤ w'.sess.base_heading ∧ w'.sess.base_heading < 360 := by
  unfold exit_calibration at H
  dsimp only at H
  cases hA : doSetFrontLed env { w with sess := { w.sess with calibration_mode := false } }
      (Color.mk 0 255 0) with
  | error e => rw [hA] at H; exact Except.noConfusion H
  | ok w1 =>
    rw [hA] at H
    dsimp only at H
    injection H with H1
    subst H1
    exact pymod_nonneg_lt _

/-- C4 witness: exiting calibration from `base_heading = -5` yields 355. -/
theorem exit_calibration_normalizes_witness :
    0 ≤ negHeadingExited.sess.base_heading ∧ negHeadingExited.sess.base_heading < 360 := by
  refine exit_calibration_normalizes envNeutral negHeadingWorld negHeadingExited ?_
  norm_num [exit_calibration, doSetFrontLed, pymod, negHeadingWorld, negHeadingExited,
    initial_world, envNeutral]

/-- C5 counterexample: a failing `set_speed` call in the deadman branch is
not caught — the exception escapes `control_loop` and aborts the session,
contradicting the claim that every failing actuator call is isolated. -/
theorem actuator_failure_escapes_loop :
    run_ticks [speedFailEnv] (initial_world 1 0) = .error () := by
  norm_num [run_ticks, control_loop_tick, battery_step, check_battery, check_konami_code,
    check_konami_list, check_konami_press, preset_step, movement_step, autostraighten_step,
    display_number, doSetSpeed, doSetHeading, doSetFrontLed, move, initial_world,
    speedFailEnv, envNeutral, BUTTONS, BATTERY_CHECK_INTERVAL]

/-- C5 (amended): only the battery-voltage read and the matrix display call
are individually isolated by `try/except`; as long as the heading, speed and
front-LED calls and the heading read succeed, a run of ticks never raises —
battery-read and display failures alone can never abort the session. -/
theorem loop_survives_caught_failures (envs : List Env) (w : World)
    (hsafe : ∀ e ∈ envs, e.failSetHeading = false ∧ e.failSetSpeed = false ∧
      e.failSetFrontLed = false ∧ e.failGetHeading = false) :
    ∃ w', run_ticks envs w = .ok w' := by
  revert hsafe
  induction envs generalizing w with
  | nil => intro hsafe; exact ⟨w, rfl⟩
  | cons env rest ih =>
    intro hsafe
    have he := hsafe env (by simp)
    by_cases hr : w.sess.is_running = true
    · obtain ⟨w1, h1⟩ := control_loop_tick_ok_ex w he.1 he.2.1 he.2.2.1 he.2.2.2
      obtain ⟨w2, h2⟩ := ih w1 (fun e hm => hsafe e (by simp [hm]))
      refine ⟨w2, ?_⟩
      unfold run_ticks
      rw [if_pos hr, h1]
      exact h2
    · refine ⟨w, ?_⟩
      unfold run_ticks
      rw [if_neg hr]

/-- C5 witness: a tick on which both the battery read and the display call
fail still completes. -/
theorem loop_survives_caught_failures_witness :
    ∃ w', run_ticks [caughtFailEnv] (initial_world 1 0) = .ok w' := by
  refine loop_survives_caught_failures [caughtFailEnv] (initial_world 1 0) ?_
  intro e he
  simp only [List.mem_singleton] at he
  subst he
  exact ⟨rfl, rfl, rfl, rfl⟩

/-- C6: motion mapping with `base_heading = 90` and speed `s`: forward stick
(`y = -1`) issues heading 90 at speed `s`; reverse (`y = 1`) issues heading
270 at speed `s`; a pure left turn (`x = -1`, `y = 0`) issues heading 68 at
speed 0; and with both axes inside the 0.7 deadzone (calibration inactive)
the tick issues speed 0 only (deadman stop). -/
theorem motion_mapping (env : Env) (w : World) (s : ℤ)
    (hbase : w.sess.base_heading = 90) (hspeed : w.sess.speed = s)
    (hcal : w.sess.calibration_mode = false)
    (hSH : env.failSetHeading = false) (hSS : env.failSetSpeed = false) :
    (env.y_axis = -1 → movement_step env w =
      .ok { w with trace := w.trace ++ [ACall.setHeading 90, ACall.setSpeed s] })
    ∧ (env.y_axis = 1 → movement_step env w =
      .ok { w with trace := w.trace ++ [ACall.setHeading 270, ACall.setSpeed s] })
    ∧ (env.x_axis = -1 → env.y_axis = 0 → movement_step env w =
      .ok { w with trace := w.trace ++ [ACall.setHeading 68, ACall.setSpeed 0] })
    ∧ (|env.y_axis| ≤ 0.7 → |env.x_axis| ≤ 0.7 → movement_step env w =
      .ok { w with trace := w.trace ++ [ACall.setSpeed 0] }) := by
  have h90 : pymod (90 : ℚ) 360 = 90 := pymod_eq_self (by norm_num) (by norm_num)
  have h270 : pymod (270 : ℚ) 360 = 270 := pymod_eq_self (by norm_num) (by norm_num)
  have h68 : pymod (68 : ℚ) 360 = 68 := pymod_eq_self (by norm_num) (by norm_num)
  refine ⟨?_, ?_, ?_, ?_⟩
  · intro hy
    norm_num [movement_step, move, doSetHeading, doSetSpeed, hcal, hy, hbase, hspeed,
      hSH, hSS, h90]
  · intro hy
    norm_num [movement_step, move, doSetHeading, doSetSpeed, hcal, hy, hbase, hspeed,
      hSH, hSS]
    norm_num [show (90 : ℚ) + 180 = 270 by norm_num, h270]
  · intro hx hy
    norm_num [movement_step, move, doSetHeading, doSetSpeed, hcal, hx, hy, hbase,
      hSH, hSS]
    norm_num [show (90 : ℚ) + -22 = 68 by norm_num, h68]
  · intro hy hx
    unfold movement_step
    rw [hcal]
    rw [if_neg (by simp), if_neg (not_lt.mpr hy), if_neg (not_lt.mpr hx)]
    exact doSetSpeed_eq _ _ hSS

/-- C6 witness: full forward stick at base heading 90 issues heading 90 at
the current speed 50. -/
theorem motion_mapping_witness :
    movement_step straightEnv east90World =
      .ok { east90World with
        trace := east90World.trace ++ [ACall.setHeading 90, ACall.setSpeed 50] } :=
  (motion_mapping straightEnv east90World 50 rfl rfl rfl rfl rfl).1 rfl

/-- C7 counterexample: the auto-straighten step from `base_heading = 0` with
actual heading 10 yields `base_heading = -2` and re-issues `set_heading`
with -2; the value is NOT normalized to 358 as the claim states. -/
theorem autostraighten_not_normalized :
    autostraighten_step straightEnv cheatPinnedWorld =
      .ok { cheatPinnedWorld with
        sess := { cheatPinnedWorld.sess with base_heading := -2 },
        trace := [ACall.setHeading (-2)] }
    ∧ (-2 : ℚ) ≠ 358 := by
  constructor
  · norm_num [autostraighten_step, doSetHeading, straightEnv, envNeutral,
      cheatPinnedWorld, initial_world]
  · norm_num

/-- C7 (amended): in cheat mode, moving roughly straight (`|y| > 0.7`,
`|x| < 0.2`) with `base_heading = 0` and an actual heading of 10, the
correction applied is `-(10-0)*0.2 = -2`, giving a new (un-normalized)
`base_heading = -2` that is re-issued to the actuator via `set_heading`;
and no correction is applied when `|delta| ≤ 3`. -/
theorem autostraighten_amended :
    (∀ (env : Env) (w : World),
      w.sess.cheat_mode = true → w.sess.base_heading = 0 →
      0.7 < |env.y_axis| → |env.x_axis| < 0.2 → env.heading_reading = 10 →
      env.failGetHeading = false → env.failSetHeading = false →
      autostraighten_step env w =
        .ok { w with
          sess := { w.sess with base_heading := -2 },
          trace := w.trace ++ [ACall.setHeading (-2)] })
    ∧ (∀ (env : Env) (w : World),
      |env.heading_reading - w.sess.base_heading| ≤ 3 →
      env.failGetHeading = false →
      autostraighten_step env w = .ok w) := by
  constructor
  · intro env w hc hb hy hx hr hG hH
    unfold autostraighten_step
    rw [if_pos ⟨hc, hy, hx⟩, hG]
    simp only [Bool.false_eq_true, if_false]
    rw [hr, hb]
    rw [if_pos (by norm_num : (3 : ℚ) < |(10 : ℚ) - 0|)]
    rw [doSetHeading_eq _ _ hH]
    norm_num
  · intro env w hd hG
    unfold autostraighten_step
    dsimp only
    split
    · rw [hG]
      simp only [Bool.false_eq_true, if_false]
      rw [if_neg (not_lt.mpr hd)]
    · rfl

/-- C7 witness: the amended correction theorem at the concrete drifted
state. -/
theorem autostraighten_amended_witness :
    autostraighten_step straightEnv cheatPinnedWorld =
      .ok { cheatPinnedWorld with
        sess := { cheatPinnedWorld.sess with base_heading := -2 },
        trace := cheatPinnedWorld.trace ++ [ACall.setHeading (-2)] } := by
  refine autostraighten_amended.1 straightEnv cheatPinnedWorld rfl rfl ?_ ?_ rfl rfl rfl
  · norm_num [straightEnv, envNeutral]
  · norm_num [straightEnv, envNeutral]

/-- C9 counterexample: when discovery fails (arguments and joystick fine)
the process prints and skips the loop but exits with status 0, not the
non-zero status the claim requires. -/
theorem discovery_failure_exit_zero :
    (program discoveryFailStart).exit_code = 0 ∧
    (program discoveryFailStart).loop_entered = false := by
  constructor <;> rfl

/-- C9 (amended): on any start-up failure — no joystick, discovery failure,
or connect failure — a human-readable message is reported, the control loop
is never entered and no actuator call is attempted, but the process exits
with status 0 (only the missing-argument usage path exits non-zero). -/
theorem startup_failure_amended (e : MainEnv)
    (hargs : 4 ≤ e.argc)
    (hfail : e.joystick_count = 0 ∨ e.discovery_ok = false ∨ e.connect_ok = false) :
    (program e).exit_code = 0 ∧ (program e).loop_entered = false ∧
    (program e).messages ≠ [] ∧ (program e).actuator_calls = 0 := by
  unfold program
  rw [if_neg (by omega : ¬ e.argc < 4)]
  rcases hfail with h | h | h
  · rw [if_pos h]
    exact ⟨rfl, rfl, List.cons_ne_nil _ _, rfl⟩
  · by_cases hj : e.joystick_count = 0
    · rw [if_pos hj]
      exact ⟨rfl, rfl, List.cons_ne_nil _ _, rfl⟩
    · rw [if_neg hj, if_pos h]
      exact ⟨rfl, rfl, List.cons_ne_nil _ _, rfl⟩
  · by_cases hj : e.joystick_count = 0
    · rw [if_pos hj]
      exact ⟨rfl, rfl, List.cons_ne_nil _ _, rfl⟩
    · rw [if_neg hj]
      by_cases hd : e.discovery_ok = false
      · rw [if_pos hd]
        exact ⟨rfl, rfl, List.cons_ne_nil _ _, rfl⟩
      · rw [if_neg hd, if_pos h]
        exact ⟨rfl, rfl, List.cons_ne_nil _ _, rfl⟩

/-- C9 witness: the discovery-failure start-up. -/
theorem startup_failure_amended_witness :
    (program discoveryFailStart).exit_code = 0 ∧
    (program discoveryFailStart).loop_entered = false ∧
    (program discoveryFailStart).messages ≠ [] ∧
    (program discoveryFailStart).actuator_calls = 0 :=
  startup_failure_amended discoveryFailStart (by decide) (Or.inr (Or.inl rfl))

/-- C10: whenever the 30-second battery interval has elapsed and the voltage
read fails, the tick still advances `last_battery_check` to the current time
(deferring the next attempt by a full interval) and changes nothing else:
the session fields, the issued-command trace and the front LED are all
retained. -/
theorem battery_failure_defers_check (env : Env) (w : World)
    (hdue : BATTERY_CHECK_INTERVAL ≤ env.now - w.sess.last_battery_check)
    (hfail : env.failGetVoltage = true) :
    battery_step env w = { w with sess := { w.sess with last_battery_check := env.now } } := by
  unfold battery_step
  rw [if_pos hdue]
  unfold check_battery
  rw [if_pos hfail]

/-- C10 witness: at 40 seconds with a failing voltage read, only the
timestamp moves. -/
theorem battery_failure_defers_check_witness :
    battery_step voltFailEnv (initial_world 1 0) =
      { initial_world 1 0 with
        sess := { (initial_world 1 0).sess with last_battery_check := 40 } } := by
  have h := battery_failure_defers_check voltFailEnv (initial_world 1 0)
    (by norm_num [voltFailEnv, envNeutral, initial_world, BATTERY_CHECK_INTERVAL]) rfl
  simpa [voltFailEnv, envNeutral] using h
